import Mathlib

/-!
# Verification of the JobTrack4U-Test Page Object Model layer

Shallow embedding of the repository's Page Object Model (POM) layer
(`src/pages/BasePage.js`, `JobsPage.js`, `AddJobPage.js`,
`ActivitiesPage.js`, `TimelinePage.js`, `AuthPage.js`,
`DashboardPage.js`) over an explicit model of the browser-automation
engine the page objects delegate to.

The browser page is modelled as an explicit state (current URL, the DOM
as a map from selector strings to matching elements, form-control values
as a map from selector strings to strings, and the list of registered
dialog listeners).  Page-object methods, which in the source are `async`
JavaScript methods sequencing engine calls, become state-passing
functions in a `PageState → Except Err α × PageState` monad; an
engine call that can time out returns `Except.error Err.timeout`
paired with the state reached at the failure point.

The target web application itself is external to this repository; where
a method's observable behaviour depends on the application's reaction
(what clicking a button does, where a navigation lands after redirects),
that reaction is a parameter (`AppModel`) or is modelled from the spec,
as flagged in the corresponding doc comment.
-/

/-- JavaScript `String.prototype.includes` helper: list-of-chars prefix test. -/
def isPrefixL : List Char → List Char → Bool
  | [], _ => true
  | _ :: _, [] => false
  | a :: as, b :: bs => a = b && isPrefixL as bs

/-- `hasSubstr needle hay`: does `hay` contain `needle` as a contiguous substring? -/
def hasSubstr (needle : List Char) : List Char → Bool
  | [] => isPrefixL needle []
  | c :: rest => isPrefixL needle (c :: rest) || hasSubstr needle rest

/-- Model of JavaScript `s.includes(sub)` used by the `isOnXPage` checks. -/
def strIncludes (s sub : String) : Bool :=
  hasSubstr sub.toList s.toList

/-- Base URL configured in `playwright.config.js` (`baseURL: 'http://localhost:3000'`);
relative URLs passed to the engine resolve against it. -/
def baseURL : String := "http://localhost:3000"

/-- A DOM element as far as the embedded queries observe it: its visibility
and its text content. -/
structure Elem where
  visible : Bool
  text : String
  deriving DecidableEq

/-- The browser page state observed and manipulated by the page objects:
current URL, the DOM (elements matching each selector string, in document
order), current form-control values per selector, and the dialog listeners
registered via `page.on('dialog', …)`, in registration order (`true` =
a listener that accepts, `false` = one that dismisses). -/
structure PageState where
  url : String
  dom : String → List Elem
  inputs : String → String
  handlers : List Bool

/-- Engine errors surfaced to page-object methods: every failing engine
call in the embedded code fails by timing out. -/
inductive Err
  | timeout
  deriving DecidableEq

/-- State-passing monad for page-object methods: a method transforms the
page state and either returns a value or propagates an engine error.
The page state persists across an error (a thrown engine error does not
roll the browser back), so the error case also carries the state reached
at the failure point. -/
def PageM (α : Type) : Type :=
  PageState → Except Err α × PageState

instance : Monad PageM where
  pure a := fun st => (.ok a, st)
  bind m f := fun st =>
    match m st with
    | (.ok a, st') => f a st'
    | (.error e, st') => (.error e, st')

/-- Unfolding lemma for `bind` in `PageM`. -/
theorem PageM.run_bind {α β : Type} (m : PageM α) (f : α → PageM β) (st : PageState) :
    (m >>= f) st =
      match m st with
      | (.ok a, st') => f a st'
      | (.error e, st') => (.error e, st') := rfl

/-- Unfolding lemma for `pure` in `PageM`. -/
theorem PageM.run_pure {α : Type} (a : α) (st : PageState) :
    (pure a : PageM α) st = (.ok a, st) := rfl

/-- `try { m } catch { h }` on a page-object method: on an error the
handler resumes from the state at the failure point. -/
def pTry {α : Type} (m h : PageM α) : PageM α := fun st =>
  match m st with
  | (.ok a, st') => (.ok a, st')
  | (.error _, st') => h st'

/-- The page state after running a method, whether or not it succeeded. -/
def execP {α : Type} (m : PageM α) (st : PageState) : PageState :=
  (m st).2

/-- Pointwise update of a string-keyed map (a form-control write). -/
def updS (f : String → String) (k v : String) : String → String :=
  fun x => if x = k then v else f x

/-- The external application's reaction to engine actions whose effect is
decided by the application, not by this repository: what the page looks
like after navigating to a URL, and after clicking an element. -/
structure AppModel where
  gotoEffect : String → PageState → PageState
  clickEffect : String → PageState → PageState

namespace BasePage

/-- `BasePage.navigate(url)`: `page.goto(url)`; the resulting page
(including any application redirect) is the application's reaction. -/
def navigate (app : AppModel) (url : String) : PageM Unit := fun st =>
  (.ok (), app.gotoEffect url st)

/-- `BasePage.waitForElement(selector, timeout)`: `page.waitForSelector`
waits (default state `visible`) until an element matching `selector` is
visible; in this static snapshot model it succeeds iff such an element
is present now, and otherwise fails with a timeout. -/
def waitForElement (sel : String) (_timeout : Nat := 5000) : PageM Unit := fun st =>
  if (st.dom sel).any (fun e => e.visible) then (.ok (), st) else (.error .timeout, st)

/-- `BasePage.waitForUrl(expectedUrl, timeout)`: `page.waitForURL` with a
wildcard-free string pattern succeeds when the page URL equals the
pattern resolved against the configured base URL, and otherwise times
out. -/
def waitForUrl (pattern : String) (_timeout : Nat := 10000) : PageM Unit := fun st =>
  if st.url = baseURL ++ pattern then (.ok (), st) else (.error .timeout, st)

/-- `BasePage.fillInput(selector, value)`: `page.fill` sets the matching
form control's value.  The embedded form pages contain the filled
controls, so the fill's own element wait is not modelled as failing. -/
def fillInput (sel value : String) : PageM Unit := fun st =>
  (.ok (), { st with inputs := updS st.inputs sel value })

/-- `BasePage.selectOption(selector, value)`: `page.selectOption` sets the
matching select control's value (the selected option's value attribute). -/
def selectOption (sel value : String) : PageM Unit := fun st =>
  (.ok (), { st with inputs := updS st.inputs sel value })

/-- `BasePage.clickElement(selector)`: `page.click`; the DOM consequences
of the click are the application's reaction. -/
def clickElement (app : AppModel) (sel : String) : PageM Unit := fun st =>
  (.ok (), app.clickEffect sel st)

/-- `BasePage.getTextContent(selector)`: `page.locator(selector).textContent()`.
The engine's `textContent` auto-waits for the locator to resolve: with
zero matching elements it fails with a timeout; with a first matching
element it returns that element's text. -/
def getTextContent (sel : String) : PageM String := fun st =>
  match st.dom sel with
  | [] => (.error .timeout, st)
  | e :: _ => (.ok e.text, st)

/-- `BasePage.isVisible(selector)`: `locator.isVisible()` does not wait;
it returns `false` for zero matching elements and otherwise the first
matching element's visibility. -/
def isVisible (sel : String) : PageM Bool := fun st =>
  match st.dom sel with
  | [] => (.ok false, st)
  | e :: _ => (.ok e.visible, st)

/-- `BasePage.getElementCount(selector)`: `locator.count()` returns the
number of matching elements and never fails. -/
def getElementCount (sel : String) : PageM Nat := fun st =>
  (.ok (st.dom sel).length, st)

/-- `BasePage.waitForTimeout(timeout)`: a fixed settle delay; always
succeeds and changes nothing observable. -/
def waitForTimeout (_timeout : Nat := 1000) : PageM Unit := fun st =>
  (.ok (), st)

/-- `BasePage.setupDialogHandler(accept)`: `page.on('dialog', handler)`
appends a listener to the page's dialog-listener list (it does not
replace previously registered listeners). -/
def setupDialogHandler (accept : Bool := true) : PageM Unit := fun st =>
  (.ok (), { st with handlers := st.handlers ++ [accept] })

end BasePage

/-- Outcome of a native dialog raised on the page, per the engine's
documented behaviour: with no registered listener the dialog is
auto-dismissed (`none`); with listeners, every listener fires in
registration order and the first to respond settles the dialog, so the
outcome follows the first registered listener (`some true` = accepted,
`some false` = dismissed). -/
def dialogOutcome (st : PageState) : Option Bool :=
  st.handlers.head?

/-! ## JobsPage (`src/pages/JobsPage.js`) -/

/-- The nested `jobDetails` object of the `JobsPage` locator map. -/
structure JobDetailsLocators where
  position : String
  company : String
  location : String
  status : String
  type : String
  salary : String
  priority : String
  postingUrl : String
  deriving DecidableEq

/-- The `JobsPage` locator map assigned in its constructor.  The
`jobCard` entry of the source map is a function-valued entry that no
method ever invokes (and whose body would fail if invoked, calling
`.filter` on a string); it is not part of the embedded map. -/
structure JobsLocators where
  pageTitle : String
  searchInput : String
  statusFilter : String
  typeFilter : String
  categoryFilter : String
  priorityFilter : String
  sortSelect : String
  clearFiltersButton : String
  jobCards : String
  jobPosition : String
  jobCompany : String
  jobLocation : String
  jobStatus : String
  jobSalary : String
  jobPriority : String
  jobPostingLink : String
  editButton : String
  deleteButton : String
  jobDetails : JobDetailsLocators
  deriving DecidableEq

/-- The literal locator values from the `JobsPage` constructor. -/
def jobsLocators : JobsLocators where
  pageTitle := "h2, h3"
  searchInput := "input[name=\"search\"]"
  statusFilter := "select[name=\"searchStatus\"]"
  typeFilter := "select[name=\"searchType\"]"
  categoryFilter := "select[name=\"searchCategory\"]"
  priorityFilter := "select[name=\"searchPriority\"]"
  sortSelect := "select[name=\"sort\"]"
  clearFiltersButton := "button:has-text(\"Clear Filters\"), button:has-text(\"Clear\")"
  jobCards := "[class*=\"job\"], .job-card, article"
  jobPosition := ".position, [class*=\"position\"]"
  jobCompany := ".company, [class*=\"company\"]"
  jobLocation := ".location, [class*=\"location\"]"
  jobStatus := "[class*=\"status\"]"
  jobSalary := "[class*=\"salary\"]"
  jobPriority := "[class*=\"priority\"], .priority-high, .priority-medium, .priority-low"
  jobPostingLink := "a[href*=\"http\"]"
  editButton := "button:has-text(\"Edit\"), a:has-text(\"Edit\")"
  deleteButton := "button:has-text(\"Delete\")"
  jobDetails :=
    { position := "[class*=\"position\"], .job-title"
      company := "[class*=\"company\"], .company-name"
      location := "[class*=\"location\"], .job-location"
      status := "[class*=\"status\"], .job-status"
      type := "[class*=\"type\"], .job-type"
      salary := "[class*=\"salary\"], .salary-range"
      priority := "[class*=\"priority\"], .priority-badge"
      postingUrl := "a[href*=\"http\"], .posting-link" }

/-- The job-listing filter values read back by `getCurrentFilters`. -/
structure FilterValues where
  search : String
  status : String
  type : String
  category : String
  priority : String
  sort : String
  deriving DecidableEq

/-- The filter argument object of `applyFilters`; in the source any
subset of keys may be present, and a present-but-falsy value (the empty
string) behaves like an absent key. -/
structure Filters where
  search : Option String := none
  status : Option String := none
  type : Option String := none
  category : Option String := none
  priority : Option String := none
  sort : Option String := none

/-- JavaScript truthiness of an optional string value: an absent key
(`none`), like the empty string, is falsy; every other string is truthy. -/
def truthy : Option String → Bool
  | none => false
  | some s => s ≠ ""

/-- `if (v) { act(v) }` over an optional string field, the guard pattern
of every fill helper. -/
def fillIf (v : Option String) (act : String → PageM Unit) : PageM Unit :=
  if truthy v then act (v.getD "") else pure ()

namespace JobsPage

/-- `JobsPage.navigateToJobs()`, with the locator map explicit. -/
def navigateToJobsL (_loc : JobsLocators) (app : AppModel) : PageM Unit := do
  BasePage.navigate app "/all-jobs"
  BasePage.waitForUrl "/all-jobs"

/-- `JobsPage.isOnJobsPage()`: `page.url().includes('/all-jobs')`. -/
def isOnJobsPageL (_loc : JobsLocators) : PageM Bool := fun st =>
  (.ok (strIncludes st.url "/all-jobs"), st)

/-- `JobsPage.getPageTitle()`. -/
def getPageTitleL (loc : JobsLocators) : PageM String :=
  BasePage.getTextContent loc.pageTitle

/-- `JobsPage.searchJobs(searchTerm)`. -/
def searchJobsL (loc : JobsLocators) (term : String) : PageM Unit := do
  BasePage.fillInput loc.searchInput term
  BasePage.waitForTimeout 1000

/-- `JobsPage.filterByStatus(status)`. -/
def filterByStatusL (loc : JobsLocators) (status : String) : PageM Unit := do
  BasePage.selectOption loc.statusFilter status
  BasePage.waitForTimeout 1000

/-- `JobsPage.filterByType(type)`. -/
def filterByTypeL (loc : JobsLocators) (type : String) : PageM Unit := do
  BasePage.selectOption loc.typeFilter type
  BasePage.waitForTimeout 1000

/-- `JobsPage.filterByCategory(category)`. -/
def filterByCategoryL (loc : JobsLocators) (category : String) : PageM Unit := do
  BasePage.selectOption loc.categoryFilter category
  BasePage.waitForTimeout 1000

/-- `JobsPage.filterByPriority(priority)`. -/
def filterByPriorityL (loc : JobsLocators) (priority : String) : PageM Unit := do
  BasePage.selectOption loc.priorityFilter priority
  BasePage.waitForTimeout 1000

/-- `JobsPage.sortJobs(sortOption)`. -/
def sortJobsL (loc : JobsLocators) (sortOption : String) : PageM Unit := do
  BasePage.selectOption loc.sortSelect sortOption
  BasePage.waitForTimeout 1000

/-- `JobsPage.clearFilters()`. -/
def clearFiltersL (loc : JobsLocators) (app : AppModel) : PageM Unit :=
  BasePage.clickElement app loc.clearFiltersButton

/-- `JobsPage.getJobCardsCount()`. -/
def getJobCardsCountL (loc : JobsLocators) : PageM Nat :=
  BasePage.getElementCount loc.jobCards

/-- `JobsPage.getCurrentFilters()`: reads `inputValue()` of every filter
control. -/
def getCurrentFiltersL (loc : JobsLocators) : PageM FilterValues := fun st =>
  (.ok ⟨st.inputs loc.searchInput, st.inputs loc.statusFilter,
        st.inputs loc.typeFilter, st.inputs loc.categoryFilter,
        st.inputs loc.priorityFilter, st.inputs loc.sortSelect⟩, st)

/-- `JobsPage.applyFilters(filters)`: applies each filter whose key is
present with a truthy value. -/
def applyFiltersL (loc : JobsLocators) (f : Filters) : PageM Unit := do
  fillIf f.search (searchJobsL loc)
  fillIf f.status (filterByStatusL loc)
  fillIf f.type (filterByTypeL loc)
  fillIf f.category (filterByCategoryL loc)
  fillIf f.priority (filterByPriorityL loc)
  fillIf f.sort (sortJobsL loc)

/-- `JobsPage.waitForJobsLoad()`: waits for job cards, and on a timeout
falls back to waiting for the page title. -/
def waitForJobsLoadL (loc : JobsLocators) : PageM Unit :=
  pTry (BasePage.waitForElement loc.jobCards 3000)
    (BasePage.waitForElement loc.pageTitle 3000)

/-- `JobsPage.deleteJobByCompany(companyName)`: registers an accepting
dialog handler, clicks the job card's delete button, and waits a fixed
settle delay.  The job-card scoped delete-button selector is modelled as
the card selector paired with the company name and button selector. -/
def deleteJobByCompanyL (loc : JobsLocators) (app : AppModel) (companyName : String) :
    PageM Unit := do
  BasePage.setupDialogHandler true
  BasePage.clickElement app (loc.jobCards ++ " >> " ++ companyName ++ " >> " ++ loc.deleteButton)
  BasePage.waitForTimeout 2000

/-- The methods above applied to the constructor's locator map. -/
def navigateToJobs : AppModel → PageM Unit := navigateToJobsL jobsLocators

/-- `isOnJobsPage` on the constructed page object. -/
def isOnJobsPage : PageM Bool := isOnJobsPageL jobsLocators

/-- `getPageTitle` on the constructed page object. -/
def getPageTitle : PageM String := getPageTitleL jobsLocators

/-- `searchJobs` on the constructed page object. -/
def searchJobs : String → PageM Unit := searchJobsL jobsLocators

/-- `filterByStatus` on the constructed page object. -/
def filterByStatus : String → PageM Unit := filterByStatusL jobsLocators

/-- `filterByType` on the constructed page object. -/
def filterByType : String → PageM Unit := filterByTypeL jobsLocators

/-- `clearFilters` on the constructed page object. -/
def clearFilters : AppModel → PageM Unit := clearFiltersL jobsLocators

/-- `getCurrentFilters` on the constructed page object. -/
def getCurrentFilters : PageM FilterValues := getCurrentFiltersL jobsLocators

/-- `applyFilters` on the constructed page object. -/
def applyFilters : Filters → PageM Unit := applyFiltersL jobsLocators

/-- `waitForJobsLoad` on the constructed page object. -/
def waitForJobsLoad : PageM Unit := waitForJobsLoadL jobsLocators

end JobsPage

/-! ## AddJobPage (`src/pages/AddJobPage.js`) -/

/-- The `AddJobPage` locator map assigned in its constructor. -/
structure AddJobLocators where
  pageTitle : String
  positionInput : String
  companyInput : String
  jobLocationInput : String
  jobTypeSelect : String
  statusSelect : String
  salaryMinInput : String
  salaryMaxInput : String
  salaryCurrencySelect : String
  jobDescriptionTextarea : String
  companyWebsiteInput : String
  jobPostingUrlInput : String
  applicationMethodSelect : String
  notesTextarea : String
  categorySelect : String
  tagsInput : String
  prioritySelect : String
  submitButton : String
  alertMessage : String
  deriving DecidableEq

/-- The literal locator values from the `AddJobPage` constructor. -/
def addJobLocators : AddJobLocators where
  pageTitle := "h3"
  positionInput := "input[name=\"position\"]"
  companyInput := "input[name=\"company\"]"
  jobLocationInput := "input[name=\"jobLocation\"]"
  jobTypeSelect := "select[name=\"jobType\"]"
  statusSelect := "select[name=\"status\"]"
  salaryMinInput := ".form-input[name=\"salaryMin\"]"
  salaryMaxInput := ".form-input[name=\"salaryMax\"]"
  salaryCurrencySelect := "select[name=\"salaryCurrency\"]"
  jobDescriptionTextarea := ".form-textarea[name=\"jobDescription\"]"
  companyWebsiteInput := ".form-input[name=\"companyWebsite\"]"
  jobPostingUrlInput := ".form-input[name=\"jobPostingUrl\"]"
  applicationMethodSelect := "select[name=\"applicationMethod\"]"
  notesTextarea := ".form-textarea[name=\"notes\"]"
  categorySelect := "select[name=\"category\"]"
  tagsInput := ".form-input[name=\"tags\"]"
  prioritySelect := "select[name=\"priority\"]"
  submitButton := ".submit-btn, button[type=\"submit\"]"
  alertMessage := "[class*=\"alert\"], .success, .error"

/-- The optional `enhanced` sub-object of a job draft. -/
structure EnhancedData where
  salaryMin : Option String := none
  salaryMax : Option String := none
  salaryCurrency : Option String := none
  jobDescription : Option String := none
  companyWebsite : Option String := none
  jobPostingUrl : Option String := none
  applicationMethod : Option String := none
  notes : Option String := none

/-- The optional `phase2` sub-object of a job draft. -/
structure Phase2Data where
  category : Option String := none
  tags : Option String := none
  priority : Option String := none

/-- A job draft as passed to the fill workflow: top-level fields plus
the optional nested `enhanced` and `phase2` sub-objects; every leaf key
may be absent. -/
structure JobData where
  position : Option String := none
  company : Option String := none
  jobLocation : Option String := none
  jobType : Option String := none
  status : Option String := none
  enhanced : Option EnhancedData := none
  phase2 : Option Phase2Data := none

/-- The form values read back by `AddJobPage.getFormValues()`. -/
structure FormValues where
  position : String
  company : String
  jobLocation : String
  jobType : String
  status : String
  salaryMin : String
  salaryMax : String
  category : String
  priority : String
  deriving DecidableEq

namespace AddJobPage

/-- `AddJobPage.fillBasicJobInfo(jobData)`: fills each basic field whose
value is truthy. -/
def fillBasicJobInfoL (loc : AddJobLocators) (d : JobData) : PageM Unit := do
  fillIf d.position (BasePage.fillInput loc.positionInput)
  fillIf d.company (BasePage.fillInput loc.companyInput)
  fillIf d.jobLocation (BasePage.fillInput loc.jobLocationInput)
  fillIf d.jobType (BasePage.selectOption loc.jobTypeSelect)
  fillIf d.status (BasePage.selectOption loc.statusSelect)

/-- `AddJobPage.fillEnhancedJobInfo(enhancedData)`. -/
def fillEnhancedJobInfoL (loc : AddJobLocators) (e : EnhancedData) : PageM Unit := do
  fillIf e.salaryMin (BasePage.fillInput loc.salaryMinInput)
  fillIf e.salaryMax (BasePage.fillInput loc.salaryMaxInput)
  fillIf e.salaryCurrency (BasePage.selectOption loc.salaryCurrencySelect)
  fillIf e.jobDescription (BasePage.fillInput loc.jobDescriptionTextarea)
  fillIf e.companyWebsite (BasePage.fillInput loc.companyWebsiteInput)
  fillIf e.jobPostingUrl (BasePage.fillInput loc.jobPostingUrlInput)
  fillIf e.applicationMethod (BasePage.selectOption loc.applicationMethodSelect)
  fillIf e.notes (BasePage.fillInput loc.notesTextarea)

/-- `AddJobPage.fillPhase2JobInfo(phase2Data)`. -/
def fillPhase2JobInfoL (loc : AddJobLocators) (p : Phase2Data) : PageM Unit := do
  fillIf p.category (BasePage.selectOption loc.categorySelect)
  fillIf p.tags (BasePage.fillInput loc.tagsInput)
  fillIf p.priority (BasePage.selectOption loc.prioritySelect)

/-- `AddJobPage.fillCompleteJobForm(jobData)`: basic fields always, the
`enhanced` and `phase2` sub-objects only when provided. -/
def fillCompleteJobFormL (loc : AddJobLocators) (d : JobData) : PageM Unit := do
  fillBasicJobInfoL loc d
  match d.enhanced with
  | some e => fillEnhancedJobInfoL loc e
  | none => pure ()
  match d.phase2 with
  | some p => fillPhase2JobInfoL loc p
  | none => pure ()

/-- `AddJobPage.getFormValues()`: reads `inputValue()` of nine form
controls. -/
def getFormValuesL (loc : AddJobLocators) : PageM FormValues := fun st =>
  (.ok ⟨st.inputs loc.positionInput, st.inputs loc.companyInput,
        st.inputs loc.jobLocationInput, st.inputs loc.jobTypeSelect,
        st.inputs loc.statusSelect, st.inputs loc.salaryMinInput,
        st.inputs loc.salaryMaxInput, st.inputs loc.categorySelect,
        st.inputs loc.prioritySelect⟩, st)

/-- `fillBasicJobInfo` on the constructed page object. -/
def fillBasicJobInfo : JobData → PageM Unit := fillBasicJobInfoL addJobLocators

/-- `fillEnhancedJobInfo` on the constructed page object. -/
def fillEnhancedJobInfo : EnhancedData → PageM Unit := fillEnhancedJobInfoL addJobLocators

/-- `fillPhase2JobInfo` on the constructed page object. -/
def fillPhase2JobInfo : Phase2Data → PageM Unit := fillPhase2JobInfoL addJobLocators

/-- `fillCompleteJobForm` on the constructed page object. -/
def fillCompleteJobForm : JobData → PageM Unit := fillCompleteJobFormL addJobLocators

/-- `getFormValues` on the constructed page object. -/
def getFormValues : PageM FormValues := getFormValuesL addJobLocators

end AddJobPage

/-! ## ActivitiesPage (`src/pages/ActivitiesPage.js`) -/

/-- The `ActivitiesPage` locator map assigned in its constructor. -/
structure ActivitiesLocators where
  pageTitle : String
  activitiesContainer : String
  activityCards : String
  activityTypeFilter : String
  activityStatusFilter : String
  clearFiltersButton : String
  activityTitle : String
  activityType : String
  statusBadge : String
  priorityBadge : String
  createdDate : String
  scheduledDate : String
  completedDate : String
  jobReference : String
  activityActions : String
  markCompleteButton : String
  deleteButton : String
  pendingActivity : String
  completedActivity : String
  highPriorityCard : String
  mediumPriorityCard : String
  lowPriorityCard : String
  highPriorityBadge : String
  mediumPriorityBadge : String
  lowPriorityBadge : String
  noActivities : String
  noActivitiesTitle : String
  activitiesCount : String
  alertMessage : String
  deriving DecidableEq

/-- The literal locator values from the `ActivitiesPage` constructor. -/
def activitiesLocators : ActivitiesLocators where
  pageTitle := "h3"
  activitiesContainer := ".activities-container"
  activityCards := ".activity-card"
  activityTypeFilter := "select[name=\"activityType\"]"
  activityStatusFilter := "select[name=\"activityStatus\"]"
  clearFiltersButton := "button:has-text(\"Clear Filters\")"
  activityTitle := ".activity-title"
  activityType := ".activity-type"
  statusBadge := ".status-badge"
  priorityBadge := ".priority-badge"
  createdDate := ".created-date"
  scheduledDate := ".scheduled-date"
  completedDate := ".completed-date"
  jobReference := ".job-reference"
  activityActions := ".activity-actions"
  markCompleteButton := "button:has-text(\"Mark Complete\")"
  deleteButton := "button:has-text(\"Delete\")"
  pendingActivity := ".activity-card.pending"
  completedActivity := ".activity-card.completed"
  highPriorityCard := ".activity-card.priority-high"
  mediumPriorityCard := ".activity-card.priority-medium"
  lowPriorityCard := ".activity-card.priority-low"
  highPriorityBadge := ".priority-badge.priority-high"
  mediumPriorityBadge := ".priority-badge.priority-medium"
  lowPriorityBadge := ".priority-badge.priority-low"
  noActivities := ".no-activities"
  noActivitiesTitle := ".no-activities h4"
  activitiesCount := ".activities-count"
  alertMessage := "[class*=\"alert\"], .success"

namespace ActivitiesPage

/-- `ActivitiesPage.navigateToActivities()`. -/
def navigateToActivitiesL (_loc : ActivitiesLocators) (app : AppModel) : PageM Unit := do
  BasePage.navigate app "/activities"
  BasePage.waitForUrl "/activities"

/-- `ActivitiesPage.isOnActivitiesPage()`: `page.url().includes('/activities')`. -/
def isOnActivitiesPageL (_loc : ActivitiesLocators) : PageM Bool := fun st =>
  (.ok (strIncludes st.url "/activities"), st)

/-- `ActivitiesPage.filterByType(activityType)`. -/
def filterByTypeL (loc : ActivitiesLocators) (activityType : String) : PageM Unit := do
  BasePage.selectOption loc.activityTypeFilter activityType
  BasePage.waitForTimeout 1000

/-- `ActivitiesPage.filterByStatus(status)`. -/
def filterByStatusL (loc : ActivitiesLocators) (status : String) : PageM Unit := do
  BasePage.selectOption loc.activityStatusFilter status
  BasePage.waitForTimeout 1000

/-- `ActivitiesPage.clearFilters()`. -/
def clearFiltersL (loc : ActivitiesLocators) (app : AppModel) : PageM Unit :=
  BasePage.clickElement app loc.clearFiltersButton

/-- `ActivitiesPage.getActivityCardsCount()`. -/
def getActivityCardsCountL (loc : ActivitiesLocators) : PageM Nat :=
  BasePage.getElementCount loc.activityCards

/-- `ActivitiesPage.isActivitiesContainerVisible()`. -/
def isActivitiesContainerVisibleL (loc : ActivitiesLocators) : PageM Bool :=
  BasePage.isVisible loc.activitiesContainer

/-- `ActivitiesPage.waitForActivitiesLoad()`: waits for the page title,
then for the activities container, falling back on a timeout to the
type-filter control. -/
def waitForActivitiesLoadL (loc : ActivitiesLocators) : PageM Unit := do
  BasePage.waitForElement loc.pageTitle 5000
  pTry (BasePage.waitForElement loc.activitiesContainer 3000)
    (BasePage.waitForElement loc.activityTypeFilter 3000)

/-- `navigateToActivities` on the constructed page object. -/
def navigateToActivities : AppModel → PageM Unit := navigateToActivitiesL activitiesLocators

/-- `isOnActivitiesPage` on the constructed page object. -/
def isOnActivitiesPage : PageM Bool := isOnActivitiesPageL activitiesLocators

/-- `waitForActivitiesLoad` on the constructed page object. -/
def waitForActivitiesLoad : PageM Unit := waitForActivitiesLoadL activitiesLocators

end ActivitiesPage

/-! ## TimelinePage (`src/pages/TimelinePage.js`) -/

namespace TimelinePage

/-- `TimelinePage.navigateToTimeline()`. -/
def navigateToTimeline (app : AppModel) : PageM Unit := do
  BasePage.navigate app "/timeline"
  BasePage.waitForUrl "/timeline"

/-- `TimelinePage.isOnTimelinePage()`: `page.url().includes('/timeline')`. -/
def isOnTimelinePage : PageM Bool := fun st =>
  (.ok (strIncludes st.url "/timeline"), st)

end TimelinePage

/-! ## AuthPage (`src/pages/AuthPage.js`) -/

namespace AuthPage

/-- `AuthPage.isOnRegisterPage()`:
`page.url().includes('/register') || page.url().includes('/landing')`. -/
def isOnRegisterPage : PageM Bool := fun st =>
  (.ok (strIncludes st.url "/register" || strIncludes st.url "/landing"), st)

end AuthPage

/-! ## DashboardPage (`src/pages/DashboardPage.js`) -/

namespace DashboardPage

/-- The `DashboardPage` locator entries used by `waitForDashboardLoad`. -/
def pageTitleLoc : String := "h1, h2, h3"

/-- The dashboard-content locator entry of the `DashboardPage` map. -/
def dashboardContentLoc : String := "[data-testid=\"dashboard\"], .dashboard"

/-- `DashboardPage.waitForDashboardLoad()`: waits for the root URL, then
for the dashboard content, falling back on a timeout to the page title. -/
def waitForDashboardLoad : PageM Unit := do
  BasePage.waitForUrl "/"
  pTry (BasePage.waitForElement dashboardContentLoc 5000)
    (BasePage.waitForElement pageTitleLoc 5000)

end DashboardPage

/-! ## Page objects as stateful objects

The JavaScript page objects carry their locator map in a mutable `this`
field assigned once in the constructor.  To state that no operation ever
mutates the map, each page object is embedded as an object state pairing
the locator map with the page, and every embedded operation is run
through a step function that threads both. -/

/-- A constructed `JobsPage` object: its (one) locator map and the page. -/
structure JobsObj where
  locators : JobsLocators
  st : PageState

/-- `new JobsPage(page)`: assigns the literal locator map. -/
def mkJobsPage (st : PageState) : JobsObj :=
  { locators := jobsLocators, st := st }

/-- The embedded operations of a `JobsPage` object. -/
inductive JobsOp
  | navigateToJobs
  | isOnJobsPage
  | getPageTitle
  | searchJobs (term : String)
  | filterByStatus (status : String)
  | filterByType (type : String)
  | filterByCategory (category : String)
  | filterByPriority (priority : String)
  | sortJobs (sortOption : String)
  | clearFilters
  | getJobCardsCount
  | getCurrentFilters
  | applyFilters (f : Filters)
  | waitForJobsLoad
  | deleteJobByCompany (companyName : String)

/-- Run one `JobsPage` operation on the object: the method acts on the
page through the object's locator map (reads of `this.locators`), and
the object keeps whatever the method leaves in `this`. -/
def jobsStep (app : AppModel) : JobsOp → JobsObj → JobsObj
  | .navigateToJobs, o => { o with st := execP (JobsPage.navigateToJobsL o.locators app) o.st }
  | .isOnJobsPage, o => { o with st := execP (JobsPage.isOnJobsPageL o.locators) o.st }
  | .getPageTitle, o => { o with st := execP (JobsPage.getPageTitleL o.locators) o.st }
  | .searchJobs t, o => { o with st := execP (JobsPage.searchJobsL o.locators t) o.st }
  | .filterByStatus s, o => { o with st := execP (JobsPage.filterByStatusL o.locators s) o.st }
  | .filterByType t, o => { o with st := execP (JobsPage.filterByTypeL o.locators t) o.st }
  | .filterByCategory c, o => { o with st := execP (JobsPage.filterByCategoryL o.locators c) o.st }
  | .filterByPriority p, o => { o with st := execP (JobsPage.filterByPriorityL o.locators p) o.st }
  | .sortJobs s, o => { o with st := execP (JobsPage.sortJobsL o.locators s) o.st }
  | .clearFilters, o => { o with st := execP (JobsPage.clearFiltersL o.locators app) o.st }
  | .getJobCardsCount, o => { o with st := execP (JobsPage.getJobCardsCountL o.locators) o.st }
  | .getCurrentFilters, o => { o with st := execP (JobsPage.getCurrentFiltersL o.locators) o.st }
  | .applyFilters f, o => { o with st := execP (JobsPage.applyFiltersL o.locators f) o.st }
  | .waitForJobsLoad, o => { o with st := execP (JobsPage.waitForJobsLoadL o.locators) o.st }
  | .deleteJobByCompany c, o =>
      { o with st := execP (JobsPage.deleteJobByCompanyL o.locators app c) o.st }

/-- A constructed `ActivitiesPage` object. -/
structure ActivitiesObj where
  locators : ActivitiesLocators
  st : PageState

/-- `new ActivitiesPage(page)`: assigns the literal locator map. -/
def mkActivitiesPage (st : PageState) : ActivitiesObj :=
  { locators := activitiesLocators, st := st }

/-- The embedded operations of an `ActivitiesPage` object. -/
inductive ActivitiesOp
  | navigateToActivities
  | isOnActivitiesPage
  | filterByType (activityType : String)
  | filterByStatus (status : String)
  | clearFilters
  | getActivityCardsCount
  | isActivitiesContainerVisible
  | waitForActivitiesLoad

/-- Run one `ActivitiesPage` operation on the object. -/
def activitiesStep (app : AppModel) : ActivitiesOp → ActivitiesObj → ActivitiesObj
  | .navigateToActivities, o =>
      { o with st := execP (ActivitiesPage.navigateToActivitiesL o.locators app) o.st }
  | .isOnActivitiesPage, o =>
      { o with st := execP (ActivitiesPage.isOnActivitiesPageL o.locators) o.st }
  | .filterByType t, o => { o with st := execP (ActivitiesPage.filterByTypeL o.locators t) o.st }
  | .filterByStatus s, o =>
      { o with st := execP (ActivitiesPage.filterByStatusL o.locators s) o.st }
  | .clearFilters, o => { o with st := execP (ActivitiesPage.clearFiltersL o.locators app) o.st }
  | .getActivityCardsCount, o =>
      { o with st := execP (ActivitiesPage.getActivityCardsCountL o.locators) o.st }
  | .isActivitiesContainerVisible, o =>
      { o with st := execP (ActivitiesPage.isActivitiesContainerVisibleL o.locators) o.st }
  | .waitForActivitiesLoad, o =>
      { o with st := execP (ActivitiesPage.waitForActivitiesLoadL o.locators) o.st }

/-! ## The target application's jobs listing, modelled from the spec -/

/-- Modelled from the spec: the target web application (external to this
repository; only its test-suite callers are under `src/`) reacts to a
click on the jobs page's Clear-Filters button by resetting the listing's
query controls — the search box to the empty string and the select
filters to their `"all"` option — leaving the rest of the page alone;
clicks on other elements and navigations land as issued.  This is the
application reaction assumed by the spec's clear-filters scenario. -/
def jobsApp : AppModel where
  gotoEffect := fun url st => { st with url := baseURL ++ url }
  clickEffect := fun sel st =>
    if sel = jobsLocators.clearFiltersButton then
      let i1 := updS st.inputs jobsLocators.searchInput ""
      let i2 := updS i1 jobsLocators.statusFilter "all"
      let i3 := updS i2 jobsLocators.typeFilter "all"
      let i4 := updS i3 jobsLocators.categoryFilter "all"
      let i5 := updS i4 jobsLocators.priorityFilter "all"
      { st with inputs := i5 }
    else st

/-! ## Concrete page states used as test inputs -/

/-- A page parked on the jobs route with an empty DOM, blank form
controls and no dialog listeners. -/
def st0 : PageState where
  url := baseURL ++ "/all-jobs"
  dom := fun _ => []
  inputs := fun _ => ""
  handlers := []

/-- A page on the landing route. -/
def stLanding : PageState where
  url := baseURL ++ "/landing"
  dom := fun _ => []
  inputs := fun _ => ""
  handlers := []

/-- A page whose URL contains `/all-jobs` as a proper prefix of its path
(a job-detail style URL), which is not the jobs listing route itself. -/
def stJobsDetail : PageState where
  url := baseURL ++ "/all-jobs/42"
  dom := fun _ => []
  inputs := fun _ => ""
  handlers := []

/-- A jobs page whose title is rendered but whose job-card list matches
nothing (an empty listing). -/
def stTitleOnly : PageState where
  url := baseURL ++ "/all-jobs"
  dom := fun sel => if sel = jobsLocators.pageTitle then [⟨true, "All Jobs"⟩] else []
  inputs := fun _ => ""
  handlers := []

/-! ## C1 -/

/-- C1, counterexample: on a page where the selector `#absent` matches
zero elements, `BasePage.getTextContent` does not return the empty-string
sentinel — it propagates the engine's auto-wait timeout.  This refutes
the claim that all three base queries terminate without throwing and
return sentinels. -/
theorem c1_counterexample :
    st0.dom "#absent" = [] ∧
    BasePage.getTextContent "#absent" st0 = (.error .timeout, st0) ∧
    (BasePage.getTextContent "#absent" st0).1 ≠ .ok "" := by
  refine ⟨rfl, rfl, fun h => ?_⟩
  exact Except.noConfusion h

/-- C1, amended: for every selector matching zero elements, `isVisible`
and `getElementCount` terminate without throwing, return the sentinels
`false` and `0`, and leave the page state unchanged; `getTextContent`,
which delegates to the engine's auto-waiting `textContent`, instead
fails with a timeout (also without mutating the page). -/
theorem c1_amended (st : PageState) (sel : String) (h : st.dom sel = []) :
    BasePage.isVisible sel st = (.ok false, st) ∧
    BasePage.getElementCount sel st = (.ok 0, st) ∧
    BasePage.getTextContent sel st = (.error .timeout, st) := by
  unfold BasePage.isVisible BasePage.getElementCount BasePage.getTextContent
  simp [h]

/-- C1, witness: the amended statement evaluated on the empty-DOM page
at the selector `#absent`. -/
theorem c1_witness :
    st0.dom "#absent" = [] ∧
    (BasePage.isVisible "#absent" st0 = (.ok false, st0) ∧
     BasePage.getElementCount "#absent" st0 = (.ok 0, st0) ∧
     BasePage.getTextContent "#absent" st0 = (.error .timeout, st0)) :=
  ⟨rfl, c1_amended st0 "#absent" rfl⟩

/-! ## C9 -/

/-- C9: `AuthPage.isOnRegisterPage()` returns true exactly when the
current URL contains `/register` or contains `/landing` as a substring;
in particular it reports true on the landing route and false on the
jobs route. -/
theorem c9_isOnRegisterPage :
    (∀ st : PageState,
      AuthPage.isOnRegisterPage st =
        (.ok (strIncludes st.url "/register" || strIncludes st.url "/landing"), st)) ∧
    (AuthPage.isOnRegisterPage stLanding).1 = .ok true ∧
    (AuthPage.isOnRegisterPage st0).1 = .ok false := by
  refine ⟨fun st => rfl, ?_, ?_⟩ <;>
    · simp only [AuthPage.isOnRegisterPage, stLanding, st0, Except.ok.injEq]
      decide

/-! ## C8 -/

/-- Registering dialog listeners one after another appends them in call
order. -/
theorem handlers_after_setups (later : List Bool) (s : PageState) :
    (later.foldl (fun s b => execP (BasePage.setupDialogHandler b) s) s).handlers =
      s.handlers ++ later := by
  induction later generalizing s with
  | nil => simp
  | cons b bs ih =>
      simp only [List.foldl_cons, ih]
      simp [execP, BasePage.setupDialogHandler]

/-- C8, counterexample: calling `setupDialogHandler(true)` and then
`setupDialogHandler(false)` does not make subsequent dialogs follow the
most recent call — `page.on` stacks listeners, and the first registered
listener settles the dialog, so the dialog is still auto-accepted. -/
theorem c8_counterexample :
    st0.handlers = [] ∧
    dialogOutcome
      (execP (BasePage.setupDialogHandler false)
        (execP (BasePage.setupDialogHandler true) st0)) = some true ∧
    (some true : Option Bool) ≠ some false := by
  refine ⟨rfl, rfl, by decide⟩

/-- C8, amended: after `setupDialogHandler(accept)` on a page with no
previously registered dialog listener, every dialog raised for the
remainder of the test is auto-accepted when `accept` is true and
auto-dismissed when it is false; this persists through any number of
later `setupDialogHandler` calls, which stack further listeners but do
not override the first registration. -/
theorem c8_amended (st : PageState) (accept : Bool) (later : List Bool)
    (h : st.handlers = []) :
    dialogOutcome (execP (BasePage.setupDialogHandler accept) st) = some accept ∧
    dialogOutcome
      (later.foldl (fun s b => execP (BasePage.setupDialogHandler b) s)
        (execP (BasePage.setupDialogHandler accept) st)) = some accept := by
  constructor
  · simp [dialogOutcome, execP, BasePage.setupDialogHandler, h]
  · rw [dialogOutcome, handlers_after_setups]
    simp [execP, BasePage.setupDialogHandler, h]

/-- C8, witness: the amended statement evaluated on the listener-free
page, registering an accepting handler and then a dismissing one. -/
theorem c8_witness :
    st0.handlers = [] ∧
    (dialogOutcome (execP (BasePage.setupDialogHandler true) st0) = some true ∧
     dialogOutcome
       ([false].foldl (fun s b => execP (BasePage.setupDialogHandler b) s)
         (execP (BasePage.setupDialogHandler true) st0)) = some true) :=
  ⟨rfl, c8_amended st0 true [false] rfl⟩

/-! ## C6 -/

/-- A single `JobsPage` operation leaves the object's locator map
untouched. -/
theorem jobsStep_locators (app : AppModel) (op : JobsOp) (o : JobsObj) :
    (jobsStep app op o).locators = o.locators := by
  cases op <;> rfl

/-- A single `ActivitiesPage` operation leaves the object's locator map
untouched. -/
theorem activitiesStep_locators (app : AppModel) (op : ActivitiesOp) (o : ActivitiesObj) :
    (activitiesStep app op o).locators = o.locators := by
  cases op <;> rfl

/-- C6: a `JobsPage` or `ActivitiesPage` object carries the single
locator map assigned at construction, and after any sequence of its
operations every read of the map still returns the constructor's values
— the map is never mutated at runtime. -/
theorem c6_locators_static :
    (∀ (app : AppModel) (ops : List JobsOp) (st : PageState),
      (ops.foldl (fun o op => jobsStep app op o) (mkJobsPage st)).locators = jobsLocators) ∧
    (∀ (app : AppModel) (ops : List ActivitiesOp) (st : PageState),
      (ops.foldl (fun o op => activitiesStep app op o) (mkActivitiesPage st)).locators =
        activitiesLocators) := by
  constructor
  · intro app ops st
    suffices h : ∀ o : JobsObj,
        (ops.foldl (fun o op => jobsStep app op o) o).locators = o.locators by
      rw [h]; rfl
    induction ops with
    | nil => intro o; rfl
    | cons op rest ih =>
        intro o
        rw [List.foldl_cons, ih, jobsStep_locators]
  · intro app ops st
    suffices h : ∀ o : ActivitiesObj,
        (ops.foldl (fun o op => activitiesStep app op o) o).locators = o.locators by
      rw [h]; rfl
    induction ops with
    | nil => intro o; rfl
    | cons op rest ih =>
        intro o
        rw [List.foldl_cons, ih, activitiesStep_locators]

/-! ## C4 -/

/-- After a navigate-then-wait pair succeeds, the page URL equals the
waited-for pattern resolved against the base URL. -/
theorem navThenWait_url (app : AppModel) (path : String) (st st' : PageState)
    (h : (do BasePage.navigate app path; BasePage.waitForUrl path : PageM Unit) st =
      (.ok (), st')) :
    st'.url = baseURL ++ path := by
  simp only [PageM.run_bind, BasePage.navigate, BasePage.waitForUrl] at h
  split at h
  · next hc =>
      simp only [Prod.mk.injEq, true_and] at h
      rw [← h]
      exact hc
  · simp at h

/-- Additional navigated states for the navigation round-trips. -/
def stNavJobs : PageState := { stLanding with url := baseURL ++ "/all-jobs" }

/-- The page after navigating to the timeline route. -/
def stNavTimeline : PageState := { stLanding with url := baseURL ++ "/timeline" }

/-- The page after navigating to the activities route. -/
def stNavActivities : PageState := { stLanding with url := baseURL ++ "/activities" }

/-- C4, counterexample: on a URL that is not the jobs route (it has a
trailing path segment), `JobsPage.isOnJobsPage()` still reports true,
because the check is a substring test — refuting the claim that the
check returns false whenever the current URL is not the page's route. -/
theorem c4_counterexample :
    stJobsDetail.url ≠ baseURL ++ "/all-jobs" ∧
    (JobsPage.isOnJobsPage stJobsDetail).1 = .ok true := by
  constructor
  · decide
  · simp only [JobsPage.isOnJobsPage, JobsPage.isOnJobsPageL, stJobsDetail, Except.ok.injEq]
    decide

/-- C4, amended: for the Jobs, Timeline and Activities page objects,
`isOnXPage()` returns true immediately after the corresponding
`navigateToX()` call succeeds, and returns false whenever the current
URL does not contain X's route as a substring (not: whenever the URL
differs from the route, since the check is a substring test). -/
theorem c4_amended :
    (∀ (app : AppModel) (st st' : PageState),
      JobsPage.navigateToJobs app st = (.ok (), st') →
      JobsPage.isOnJobsPage st' = (.ok true, st')) ∧
    (∀ st : PageState, strIncludes st.url "/all-jobs" = false →
      JobsPage.isOnJobsPage st = (.ok false, st)) ∧
    (∀ (app : AppModel) (st st' : PageState),
      TimelinePage.navigateToTimeline app st = (.ok (), st') →
      TimelinePage.isOnTimelinePage st' = (.ok true, st')) ∧
    (∀ st : PageState, strIncludes st.url "/timeline" = false →
      TimelinePage.isOnTimelinePage st = (.ok false, st)) ∧
    (∀ (app : AppModel) (st st' : PageState),
      ActivitiesPage.navigateToActivities app st = (.ok (), st') →
      ActivitiesPage.isOnActivitiesPage st' = (.ok true, st')) ∧
    (∀ st : PageState, strIncludes st.url "/activities" = false →
      ActivitiesPage.isOnActivitiesPage st = (.ok false, st)) := by
  refine ⟨?_, ?_, ?_, ?_, ?_, ?_⟩
  · intro app st st' h
    have hu := navThenWait_url app "/all-jobs" st st' h
    simp only [JobsPage.isOnJobsPage, JobsPage.isOnJobsPageL, hu, Prod.mk.injEq,
      Except.ok.injEq, and_true]
    decide
  · intro st h
    simp only [JobsPage.isOnJobsPage, JobsPage.isOnJobsPageL, h]
  · intro app st st' h
    have hu := navThenWait_url app "/timeline" st st' h
    simp only [TimelinePage.isOnTimelinePage, hu, Prod.mk.injEq, Except.ok.injEq, and_true]
    decide
  · intro st h
    simp only [TimelinePage.isOnTimelinePage, h]
  · intro app st st' h
    have hu := navThenWait_url app "/activities" st st' h
    simp only [ActivitiesPage.isOnActivitiesPage, ActivitiesPage.isOnActivitiesPageL, hu,
      Prod.mk.injEq, Except.ok.injEq, and_true]
    decide
  · intro st h
    simp only [ActivitiesPage.isOnActivitiesPage, ActivitiesPage.isOnActivitiesPageL, h]

/-- C4, witness: the amended statement evaluated for all three pages,
navigating from the landing page under the modelled application, and
checking the negative direction on the landing URL. -/
theorem c4_witness :
    (JobsPage.isOnJobsPage stNavJobs = (.ok true, stNavJobs)) ∧
    (JobsPage.isOnJobsPage stLanding = (.ok false, stLanding)) ∧
    (TimelinePage.isOnTimelinePage stNavTimeline = (.ok true, stNavTimeline)) ∧
    (TimelinePage.isOnTimelinePage stLanding = (.ok false, stLanding)) ∧
    (ActivitiesPage.isOnActivitiesPage stNavActivities = (.ok true, stNavActivities)) ∧
    (ActivitiesPage.isOnActivitiesPage stLanding = (.ok false, stLanding)) :=
  ⟨c4_amended.1 jobsApp stLanding stNavJobs rfl,
   c4_amended.2.1 stLanding (by decide),
   c4_amended.2.2.1 jobsApp stLanding stNavTimeline rfl,
   c4_amended.2.2.2.1 stLanding (by decide),
   c4_amended.2.2.2.2.1 jobsApp stLanding stNavActivities rfl,
   c4_amended.2.2.2.2.2 stLanding (by decide)⟩

/-! ## C7 -/

/-- The filter object of the spec's clear-filters scenario. -/
def scenarioFilters : Filters :=
  { search := some "Developer", status := some "interview", type := some "remote" }

/-- C7: after `applyFilters({search: "Developer", status: "interview",
type: "remote"})` followed by `clearFilters()`, `getCurrentFilters()`
reports `search = ""`, `status = "all"` and `type = "all"` (under the
spec-modelled reaction of the application to the Clear-Filters click),
from any starting page state. -/
theorem c7_clear_filters (st : PageState) :
    ∃ fv : FilterValues,
      ((do JobsPage.applyFilters scenarioFilters
           JobsPage.clearFilters jobsApp
           JobsPage.getCurrentFilters : PageM FilterValues) st).1 = .ok fv ∧
      fv.search = "" ∧ fv.status = "all" ∧ fv.type = "all" :=
  ⟨⟨"", "all", "all", "all", "all", st.inputs jobsLocators.sortSelect⟩, rfl, rfl, rfl, rfl⟩

/-! ## Run characterizations of the form-fill helpers -/

/-- A conditional form-control write: applied only when the supplied
value is truthy, as in `if (data.field) { fill(selector, data.field) }`. -/
def updOpt (f : String → String) (k : String) (v : Option String) : String → String :=
  if truthy v then updS f k (v.getD "") else f

/-- Reading a different key passes a conditional write through. -/
theorem updOpt_ne (f : String → String) (k : String) (v : Option String) (x : String)
    (h : x ≠ k) : updOpt f k v x = f x := by
  unfold updOpt updS
  split <;> simp [h]

/-- Reading the written key after a truthy conditional write returns the
written value. -/
theorem updOpt_pos (f : String → String) (k : String) (v : Option String)
    (h : truthy v = true) : updOpt f k v k = v.getD "" := by
  unfold updOpt updS
  simp [h]

/-- A falsy conditional write is skipped: the key keeps its prior value. -/
theorem updOpt_neg (f : String → String) (k : String) (v : Option String)
    (h : truthy v = false) : updOpt f k v k = f k := by
  unfold updOpt
  simp [h]

/-- Running `fillIf` over `fillInput` is a conditional write. -/
theorem fillIf_fillInput_run (sel : String) (v : Option String) (st : PageState) :
    fillIf v (BasePage.fillInput sel) st =
      ((.ok ()), { st with inputs := updOpt st.inputs sel v }) := by
  unfold fillIf updOpt
  split <;> simp [BasePage.fillInput, PageM.run_pure]

/-- Running `fillIf` over `selectOption` is a conditional write. -/
theorem fillIf_selectOption_run (sel : String) (v : Option String) (st : PageState) :
    fillIf v (BasePage.selectOption sel) st =
      ((.ok ()), { st with inputs := updOpt st.inputs sel v }) := by
  unfold fillIf updOpt
  split <;> simp [BasePage.selectOption, PageM.run_pure]

/-- The form-control writes performed by `fillBasicJobInfo`, innermost
first. -/
def basicWrites (loc : AddJobLocators) (d : JobData) (f : String → String) : String → String :=
  updOpt
    (updOpt
      (updOpt
        (updOpt
          (updOpt f loc.positionInput d.position)
          loc.companyInput d.company)
        loc.jobLocationInput d.jobLocation)
      loc.jobTypeSelect d.jobType)
    loc.statusSelect d.status

/-- The form-control writes performed by `fillEnhancedJobInfo`. -/
def enhancedWrites (loc : AddJobLocators) (e : EnhancedData) (f : String → String) :
    String → String :=
  updOpt
    (updOpt
      (updOpt
        (updOpt
          (updOpt
            (updOpt
              (updOpt
                (updOpt f loc.salaryMinInput e.salaryMin)
                loc.salaryMaxInput e.salaryMax)
              loc.salaryCurrencySelect e.salaryCurrency)
            loc.jobDescriptionTextarea e.jobDescription)
          loc.companyWebsiteInput e.companyWebsite)
        loc.jobPostingUrlInput e.jobPostingUrl)
      loc.applicationMethodSelect e.applicationMethod)
    loc.notesTextarea e.notes

/-- The form-control writes performed by `fillPhase2JobInfo`. -/
def phase2Writes (loc : AddJobLocators) (p : Phase2Data) (f : String → String) :
    String → String :=
  updOpt
    (updOpt
      (updOpt f loc.categorySelect p.category)
      loc.tagsInput p.tags)
    loc.prioritySelect p.priority

/-- `fillBasicJobInfo` succeeds and performs exactly its conditional
writes. -/
theorem fillBasicJobInfoL_run (loc : AddJobLocators) (d : JobData) (st : PageState) :
    AddJobPage.fillBasicJobInfoL loc d st =
      ((.ok ()), { st with inputs := basicWrites loc d st.inputs }) := by
  unfold AddJobPage.fillBasicJobInfoL basicWrites
  simp only [PageM.run_bind, fillIf_fillInput_run, fillIf_selectOption_run]

/-- `fillEnhancedJobInfo` succeeds and performs exactly its conditional
writes. -/
theorem fillEnhancedJobInfoL_run (loc : AddJobLocators) (e : EnhancedData) (st : PageState) :
    AddJobPage.fillEnhancedJobInfoL loc e st =
      ((.ok ()), { st with inputs := enhancedWrites loc e st.inputs }) := by
  unfold AddJobPage.fillEnhancedJobInfoL enhancedWrites
  simp only [PageM.run_bind, fillIf_fillInput_run, fillIf_selectOption_run]

/-- `fillPhase2JobInfo` succeeds and performs exactly its conditional
writes. -/
theorem fillPhase2JobInfoL_run (loc : AddJobLocators) (p : Phase2Data) (st : PageState) :
    AddJobPage.fillPhase2JobInfoL loc p st =
      ((.ok ()), { st with inputs := phase2Writes loc p st.inputs }) := by
  unfold AddJobPage.fillPhase2JobInfoL phase2Writes
  simp only [PageM.run_bind, fillIf_fillInput_run, fillIf_selectOption_run]

/-- `fillCompleteJobForm` with both sub-objects present: basic writes,
then enhanced writes, then phase-2 writes. -/
theorem fillCompleteJobFormL_run (loc : AddJobLocators) (d : JobData) (e : EnhancedData)
    (p : Phase2Data) (st : PageState) (hd : d.enhanced = some e) (hp : d.phase2 = some p) :
    AddJobPage.fillCompleteJobFormL loc d st =
      ((.ok ()), { st with inputs := phase2Writes loc p (enhancedWrites loc e (basicWrites loc d st.inputs)) }) := by
  unfold AddJobPage.fillCompleteJobFormL
  simp only [PageM.run_bind, fillBasicJobInfoL_run, hd, hp, fillEnhancedJobInfoL_run,
    fillPhase2JobInfoL_run]

/-- `fillCompleteJobForm` with both sub-objects omitted: only the basic
writes happen. -/
theorem fillCompleteJobFormL_run_none (loc : AddJobLocators) (d : JobData) (st : PageState)
    (hd : d.enhanced = none) (hp : d.phase2 = none) :
    AddJobPage.fillCompleteJobFormL loc d st =
      ((.ok ()), { st with inputs := basicWrites loc d st.inputs }) := by
  unfold AddJobPage.fillCompleteJobFormL
  simp only [PageM.run_bind, fillBasicJobInfoL_run, hd, hp, PageM.run_pure]

/-! ## C2, C3, C10 -/

/-- All form-control selectors written by the complete fill workflow. -/
def addJobFormSelectors : List String :=
  [addJobLocators.positionInput, addJobLocators.companyInput, addJobLocators.jobLocationInput,
   addJobLocators.jobTypeSelect, addJobLocators.statusSelect, addJobLocators.salaryMinInput,
   addJobLocators.salaryMaxInput, addJobLocators.salaryCurrencySelect,
   addJobLocators.jobDescriptionTextarea, addJobLocators.companyWebsiteInput,
   addJobLocators.jobPostingUrlInput, addJobLocators.applicationMethodSelect,
   addJobLocators.notesTextarea, addJobLocators.categorySelect, addJobLocators.tagsInput,
   addJobLocators.prioritySelect]

/-- The form-control selectors governed by the `enhanced` and `phase2`
sub-objects. -/
def enhancedPhase2Selectors : List String :=
  [addJobLocators.salaryMinInput, addJobLocators.salaryMaxInput,
   addJobLocators.salaryCurrencySelect, addJobLocators.jobDescriptionTextarea,
   addJobLocators.companyWebsiteInput, addJobLocators.jobPostingUrlInput,
   addJobLocators.applicationMethodSelect, addJobLocators.notesTextarea,
   addJobLocators.categorySelect, addJobLocators.tagsInput, addJobLocators.prioritySelect]

/-- C2: after `fillCompleteJobForm(data)` with fully populated data
(every leaf of `data`, `data.enhanced` and `data.phase2` truthy),
`getFormValues()` returns, for each of the nine fields it reads, exactly
the value supplied in `data`; and every form control outside the
workflow's selector set keeps its prior value. -/
theorem c2_fill_roundtrip (d : JobData) (e : EnhancedData) (p : Phase2Data) (st : PageState)
    (hd : d.enhanced = some e) (hp : d.phase2 = some p)
    (h1 : truthy d.position = true) (h2 : truthy d.company = true)
    (h3 : truthy d.jobLocation = true) (h4 : truthy d.jobType = true)
    (h5 : truthy d.status = true)
    (h6 : truthy e.salaryMin = true) (h7 : truthy e.salaryMax = true)
    (_h8 : truthy e.salaryCurrency = true) (_h9 : truthy e.jobDescription = true)
    (_h10 : truthy e.companyWebsite = true) (_h11 : truthy e.jobPostingUrl = true)
    (_h12 : truthy e.applicationMethod = true) (_h13 : truthy e.notes = true)
    (h14 : truthy p.category = true) (_h15 : truthy p.tags = true)
    (h16 : truthy p.priority = true) :
    (AddJobPage.getFormValues (execP (AddJobPage.fillCompleteJobForm d) st)).1 =
      .ok ⟨d.position.getD "", d.company.getD "", d.jobLocation.getD "", d.jobType.getD "",
        d.status.getD "", e.salaryMin.getD "", e.salaryMax.getD "", p.category.getD "",
        p.priority.getD ""⟩ ∧
    ∀ sel : String, sel ∉ addJobFormSelectors →
      (execP (AddJobPage.fillCompleteJobForm d) st).inputs sel = st.inputs sel := by
  have hrun := fillCompleteJobFormL_run addJobLocators d e p st hd hp
  constructor
  · simp only [AddJobPage.getFormValues, AddJobPage.getFormValuesL,
      AddJobPage.fillCompleteJobForm, execP, hrun, Except.ok.injEq, FormValues.mk.injEq]
    refine ⟨?_, ?_, ?_, ?_, ?_, ?_, ?_, ?_, ?_⟩ <;>
      simp [phase2Writes, enhancedWrites, basicWrites, addJobLocators, updOpt_ne, updOpt_pos,
        h1, h2, h3, h4, h5, h6, h7, h14, h16]
  · intro sel hsel
    simp only [addJobFormSelectors, List.mem_cons, List.not_mem_nil, or_false, not_or] at hsel
    obtain ⟨n1, n2, n3, n4, n5, n6, n7, n8, n9, n10, n11, n12, n13, n14, n15, n16⟩ := hsel
    simp [AddJobPage.fillCompleteJobForm, execP, hrun, phase2Writes, enhancedWrites,
      basicWrites, updOpt_ne, n1, n2, n3, n4, n5, n6, n7, n8, n9, n10, n11, n12, n13, n14,
      n15, n16]

/-- The job draft with the default full field set of `createTestJob`. -/
def enhanced0 : EnhancedData where
  salaryMin := some "80000"
  salaryMax := some "120000"
  salaryCurrency := some "USD"
  jobDescription := some "Test job description"
  companyWebsite := some "https://testcompany.com"
  jobPostingUrl := some "https://testcompany.com/careers/engineer"
  applicationMethod := some "website"
  notes := some "Test notes"

/-- The `phase2` sub-object of the default test job. -/
def phase20 : Phase2Data where
  category := some "software-engineering"
  tags := some "javascript, react, node.js"
  priority := some "medium"

/-- The fully populated default test job draft. -/
def jobData0 : JobData where
  position := some "Test Software Engineer"
  company := some "Test Company Inc"
  jobLocation := some "Remote"
  jobType := some "full-time"
  status := some "pending"
  enhanced := some enhanced0
  phase2 := some phase20

/-- C2, witness: the round-trip evaluated on the default test job from a
blank form, plus the unchanged value of an unrelated control. -/
theorem c2_witness :
    (AddJobPage.getFormValues (execP (AddJobPage.fillCompleteJobForm jobData0) st0)).1 =
      .ok ⟨"Test Software Engineer", "Test Company Inc", "Remote", "full-time", "pending",
        "80000", "120000", "software-engineering", "medium"⟩ ∧
    (execP (AddJobPage.fillCompleteJobForm jobData0) st0).inputs "input[name=\"email\"]" =
      st0.inputs "input[name=\"email\"]" := by
  have h := c2_fill_roundtrip jobData0 enhanced0 phase20 st0 rfl rfl (by decide) (by decide)
    (by decide) (by decide) (by decide) (by decide) (by decide) (by decide) (by decide)
    (by decide) (by decide) (by decide) (by decide) (by decide) (by decide) (by decide)
  exact ⟨h.1, h.2 "input[name=\"email\"]" (by decide)⟩

/-- C3: a job draft with no `enhanced` and no `phase2` key leaves every
enhanced- and phase2-controlled form field unchanged. -/
theorem c3_omitted_subobjects (d : JobData) (st : PageState)
    (hd : d.enhanced = none) (hp : d.phase2 = none) :
    ∀ sel ∈ enhancedPhase2Selectors,
      (execP (AddJobPage.fillCompleteJobForm d) st).inputs sel = st.inputs sel := by
  intro sel hsel
  have hrun := fillCompleteJobFormL_run_none addJobLocators d st hd hp
  fin_cases hsel <;>
    (simp only [AddJobPage.fillCompleteJobForm, execP, hrun]
     simp [basicWrites, addJobLocators, updOpt_ne])

/-- A job draft containing only top-level fields. -/
def jobDataBasic : JobData where
  position := some "QA Engineer"
  company := some "DeleteTest LLC"
  jobLocation := some "Seattle, WA"

/-- C3, witness: filling the basic-only draft leaves the salary-minimum
control untouched. -/
theorem c3_witness :
    (execP (AddJobPage.fillCompleteJobForm jobDataBasic) st0).inputs
        addJobLocators.salaryMinInput =
      st0.inputs addJobLocators.salaryMinInput :=
  c3_omitted_subobjects jobDataBasic st0 rfl rfl addJobLocators.salaryMinInput (by decide)

/-- C10: the fill helpers skip any field whose supplied value is falsy —
for every input object, a key that is absent or holds the empty string
causes no write, and the corresponding form control keeps its prior
value. -/
theorem c10_falsy_skip (d : JobData) (e : EnhancedData) (p : Phase2Data) (st : PageState) :
    (truthy d.position = false →
      (execP (AddJobPage.fillBasicJobInfo d) st).inputs addJobLocators.positionInput =
        st.inputs addJobLocators.positionInput) ∧
    (truthy d.company = false →
      (execP (AddJobPage.fillBasicJobInfo d) st).inputs addJobLocators.companyInput =
        st.inputs addJobLocators.companyInput) ∧
    (truthy d.jobLocation = false →
      (execP (AddJobPage.fillBasicJobInfo d) st).inputs addJobLocators.jobLocationInput =
        st.inputs addJobLocators.jobLocationInput) ∧
    (truthy d.jobType = false →
      (execP (AddJobPage.fillBasicJobInfo d) st).inputs addJobLocators.jobTypeSelect =
        st.inputs addJobLocators.jobTypeSelect) ∧
    (truthy d.status = false →
      (execP (AddJobPage.fillBasicJobInfo d) st).inputs addJobLocators.statusSelect =
        st.inputs addJobLocators.statusSelect) ∧
    (truthy e.salaryMin = false →
      (execP (AddJobPage.fillEnhancedJobInfo e) st).inputs addJobLocators.salaryMinInput =
        st.inputs addJobLocators.salaryMinInput) ∧
    (truthy e.salaryMax = false →
      (execP (AddJobPage.fillEnhancedJobInfo e) st).inputs addJobLocators.salaryMaxInput =
        st.inputs addJobLocators.salaryMaxInput) ∧
    (truthy e.salaryCurrency = false →
      (execP (AddJobPage.fillEnhancedJobInfo e) st).inputs addJobLocators.salaryCurrencySelect =
        st.inputs addJobLocators.salaryCurrencySelect) ∧
    (truthy e.jobDescription = false →
      (execP (AddJobPage.fillEnhancedJobInfo e) st).inputs addJobLocators.jobDescriptionTextarea =
        st.inputs addJobLocators.jobDescriptionTextarea) ∧
    (truthy e.companyWebsite = false →
      (execP (AddJobPage.fillEnhancedJobInfo e) st).inputs addJobLocators.companyWebsiteInput =
        st.inputs addJobLocators.companyWebsiteInput) ∧
    (truthy e.jobPostingUrl = false →
      (execP (AddJobPage.fillEnhancedJobInfo e) st).inputs addJobLocators.jobPostingUrlInput =
        st.inputs addJobLocators.jobPostingUrlInput) ∧
    (truthy e.applicationMethod = false →
      (execP (AddJobPage.fillEnhancedJobInfo e) st).inputs addJobLocators.applicationMethodSelect =
        st.inputs addJobLocators.applicationMethodSelect) ∧
    (truthy e.notes = false →
      (execP (AddJobPage.fillEnhancedJobInfo e) st).inputs addJobLocators.notesTextarea =
        st.inputs addJobLocators.notesTextarea) ∧
    (truthy p.category = false →
      (execP (AddJobPage.fillPhase2JobInfo p) st).inputs addJobLocators.categorySelect =
        st.inputs addJobLocators.categorySelect) ∧
    (truthy p.tags = false →
      (execP (AddJobPage.fillPhase2JobInfo p) st).inputs addJobLocators.tagsInput =
        st.inputs addJobLocators.tagsInput) ∧
    (truthy p.priority = false →
      (execP (AddJobPage.fillPhase2JobInfo p) st).inputs addJobLocators.prioritySelect =
        st.inputs addJobLocators.prioritySelect) := by
  refine ⟨?_, ?_, ?_, ?_, ?_, ?_, ?_, ?_, ?_, ?_, ?_, ?_, ?_, ?_, ?_, ?_⟩ <;>
    (intro h
     simp only [AddJobPage.fillBasicJobInfo, AddJobPage.fillEnhancedJobInfo,
       AddJobPage.fillPhase2JobInfo, execP, fillBasicJobInfoL_run, fillEnhancedJobInfoL_run,
       fillPhase2JobInfoL_run]
     simp [basicWrites, enhancedWrites, phase2Writes, addJobLocators, updOpt_ne, updOpt_neg, h])

/-- A draft whose position key is present but empty. -/
def jobDataFalsy : JobData where
  position := some ""
  company := some "FalsyTest Inc"

/-- An enhanced sub-object whose salary-minimum key is present but
empty. -/
def enhancedFalsy : EnhancedData where
  salaryMin := some ""
  notes := some "kept"

/-- A phase-2 sub-object with no keys at all. -/
def phase2Falsy : Phase2Data where

/-- C10, witness: a present-but-empty position, a present-but-empty
salary minimum and an absent priority are all skipped on the blank
form. -/
theorem c10_witness :
    (execP (AddJobPage.fillBasicJobInfo jobDataFalsy) st0).inputs
        addJobLocators.positionInput = st0.inputs addJobLocators.positionInput ∧
    (execP (AddJobPage.fillEnhancedJobInfo enhancedFalsy) st0).inputs
        addJobLocators.salaryMinInput = st0.inputs addJobLocators.salaryMinInput ∧
    (execP (AddJobPage.fillPhase2JobInfo phase2Falsy) st0).inputs
        addJobLocators.prioritySelect = st0.inputs addJobLocators.prioritySelect := by
  obtain ⟨q1, q2, q3, q4, q5, q6, q7, q8, q9, q10, q11, q12, q13, q14, q15, q16⟩ :=
    c10_falsy_skip jobDataFalsy enhancedFalsy phase2Falsy st0
  exact ⟨q1 (by decide), q6 (by decide), q16 (by decide)⟩

/-! ## C5 -/

namespace AuthPage

/-- The inline user-button selector used by `AuthPage.logout`. -/
def userButtonSel : String := "button:has-text(\"anh\")"

/-- The inline logout-button selector used by `AuthPage.logout`. -/
def logoutButtonSel : String := "button:has-text(\"logout\")"

/-- The `logoutButton` entry of the `AuthPage` locator map. -/
def logoutButtonLoc : String :=
  "button:has-text(\"logout\"), button:has-text(\"Logout\"), button:has-text(\"Sign Out\"), [data-testid=\"logout-button\"]"

/-- The recovery branch of `AuthPage.logout`'s catch handler: when the
URL contains neither `/landing` nor `/register`, navigate to `/landing`
directly. -/
def navFallback (app : AppModel) : PageM Unit := fun st =>
  if !(strIncludes st.url "/landing") && !(strIncludes st.url "/register") then
    BasePage.navigate app "/landing" st
  else (.ok (), st)

/-- `AuthPage.logout()`: opens the user dropdown when visible, clicks
whichever logout control is visible, then waits for the landing route —
catching a timeout of that wait and recovering by settling and, if still
not on an auth route, navigating to `/landing` directly. -/
def logout (app : AppModel) : PageM Unit := do
  let userBtnVisible ← BasePage.isVisible userButtonSel
  (if userBtnVisible then
      BasePage.clickElement app userButtonSel >>= fun _ => BasePage.waitForTimeout 1000
    else pure ())
  let logoutVisible ← BasePage.isVisible logoutButtonSel
  (if logoutVisible then
      BasePage.clickElement app logoutButtonSel
    else
      BasePage.isVisible logoutButtonLoc >>= fun altVisible =>
        if altVisible then BasePage.clickElement app logoutButtonLoc else pure ())
  pTry (BasePage.waitForUrl "/landing")
    (do BasePage.waitForTimeout 3000
        navFallback app)

end AuthPage

namespace NavigationComponent

/-- `NavigationComponent.testDirectNavigation(pages)`: for each URL in
turn, navigates and waits for it, recording `'success'`; a timeout of
that wait is caught and `'failed'` recorded for that URL instead of
propagating.  The `results` object is embedded as an association list
in insertion order. -/
def testDirectNavigation (app : AppModel) : List String → PageM (List (String × String))
  | [] => pure []
  | pageUrl :: rest => do
      let r ← pTry
        (do BasePage.navigate app pageUrl
            BasePage.waitForUrl pageUrl
            pure "success")
        (pure "failed")
      let results ← testDirectNavigation app rest
      pure ((pageUrl, r) :: results)

end NavigationComponent

/-- An application model in which every navigation lands on the landing
route, as the target application does when it redirects an
unauthenticated visitor away from a protected route; clicks change
nothing. -/
def redirectApp : AppModel where
  gotoEffect := fun _ st => { st with url := baseURL ++ "/landing" }
  clickEffect := fun _ st => st

/-- A wait never moves the page: `waitForElement` returns the state it
was given. -/
theorem waitForElement_state (sel : String) (t : Nat) (st : PageState) :
    (BasePage.waitForElement sel t st).2 = st := by
  unfold BasePage.waitForElement
  split <;> rfl

/-- `pTry` of a `Unit` action whose handler always succeeds always
succeeds. -/
theorem pTry_unit_ok (m h : PageM Unit) (st : PageState)
    (hh : ∀ s, (h s).1 = .ok ()) : (pTry m h st).1 = .ok () := by
  unfold pTry
  rcases hm : m st with ⟨r, st'⟩
  cases r with
  | ok a => cases a; simp
  | error e => simpa using hh st'

/-- The catch handler of `AuthPage.logout` always succeeds. -/
theorem logoutHandler_ok (app : AppModel) (s : PageState) :
    ((do BasePage.waitForTimeout 3000
         AuthPage.navFallback app : PageM Unit) s).1 = .ok () := by
  simp only [PageM.run_bind, BasePage.waitForTimeout, AuthPage.navFallback, BasePage.navigate]
  split <;> rfl

/-- C5, counterexample: on a jobs page with a rendered title but an
empty listing, the job-cards wait inside `waitForJobsLoad` times out,
yet `waitForJobsLoad` returns successfully — the method catches the
timeout and substitutes the fallback wait, so the error does not
propagate unchanged to the caller. -/
theorem c5_counterexample :
    (BasePage.waitForElement jobsLocators.jobCards 3000 stTitleOnly).1 = .error .timeout ∧
    JobsPage.waitForJobsLoad stTitleOnly = (.ok (), stTitleOnly) := by
  constructor <;> rfl

/-- A wait never moves the page: `waitForUrl` returns the state it was
given. -/
theorem waitForUrl_state (p : String) (t : Nat) (st : PageState) :
    (BasePage.waitForUrl p t st).2 = st := by
  unfold BasePage.waitForUrl
  split <;> rfl

/-- A method that always succeeds (returns `Except.ok`) on every state. -/
def PTotal {α : Type} (m : PageM α) : Prop :=
  ∀ s : PageState, ∃ a, (m s).1 = Except.ok a

/-- Sequencing two always-succeeding methods always succeeds. -/
theorem ptotal_bind {α β : Type} {m : PageM α} {f : α → PageM β}
    (hm : PTotal m) (hf : ∀ a, PTotal (f a)) : PTotal (m >>= f) := by
  intro s
  obtain ⟨a, ha⟩ := hm s
  rcases hms : m s with ⟨r, s'⟩
  rw [hms] at ha
  simp only at ha
  obtain ⟨b, hb⟩ := hf a s'
  refine ⟨b, ?_⟩
  simp [PageM.run_bind, hms, ha, hb]

/-- A branch over two always-succeeding methods always succeeds. -/
theorem ptotal_ite {α : Type} (b : Bool) (m m' : PageM α)
    (h1 : PTotal m) (h2 : PTotal m') : PTotal (if b then m else m') := by
  cases b
  · simpa using h2
  · simpa using h1

/-- `pure` always succeeds. -/
theorem ptotal_pure {α : Type} (a : α) : PTotal (pure a : PageM α) :=
  fun _ => ⟨a, rfl⟩

/-- `isVisible` always succeeds. -/
theorem ptotal_isVisible (sel : String) : PTotal (BasePage.isVisible sel) := by
  intro s
  unfold BasePage.isVisible
  cases s.dom sel <;> exact ⟨_, rfl⟩

/-- `clickElement` always succeeds. -/
theorem ptotal_clickElement (app : AppModel) (sel : String) :
    PTotal (BasePage.clickElement app sel) :=
  fun _ => ⟨(), rfl⟩

/-- `waitForTimeout` always succeeds. -/
theorem ptotal_waitForTimeout (t : Nat) : PTotal (BasePage.waitForTimeout t) :=
  fun _ => ⟨(), rfl⟩

/-- `navigate` always succeeds. -/
theorem ptotal_navigate (app : AppModel) (url : String) :
    PTotal (BasePage.navigate app url) :=
  fun _ => ⟨(), rfl⟩

/-- `pTry` with an always-succeeding handler always succeeds. -/
theorem ptotal_pTry {α : Type} (m h : PageM α) (hh : PTotal h) : PTotal (pTry m h) := by
  intro s
  unfold pTry
  rcases hms : m s with ⟨r, s'⟩
  cases r with
  | ok a => exact ⟨a, rfl⟩
  | error e => exact hh s'

/-- The recovery branch of `logout`'s catch handler always succeeds. -/
theorem ptotal_navFallback (app : AppModel) : PTotal (AuthPage.navFallback app) := by
  intro s
  unfold AuthPage.navFallback
  split
  · exact ⟨(), rfl⟩
  · exact ⟨(), rfl⟩

/-- `AuthPage.logout` always succeeds: every timeout raised inside it is
caught and recovered from. -/
theorem ptotal_logout (app : AppModel) : PTotal (AuthPage.logout app) := by
  unfold AuthPage.logout
  refine ptotal_bind (ptotal_isVisible _) (fun uv => ?_)
  refine ptotal_bind (ptotal_ite _ _ _ ?_ (ptotal_pure _)) (fun _ => ?_)
  · exact ptotal_bind (ptotal_clickElement _ _) (fun _ => ptotal_waitForTimeout _)
  · refine ptotal_bind (ptotal_isVisible _) (fun lv => ?_)
    refine ptotal_bind (ptotal_ite _ _ _ (ptotal_clickElement _ _) ?_) (fun _ => ?_)
    · exact ptotal_bind (ptotal_isVisible _)
        (fun av => ptotal_ite _ _ _ (ptotal_clickElement _ _) (ptotal_pure _))
    · exact ptotal_pTry _ _
        (ptotal_bind (ptotal_waitForTimeout _) (fun _ => ptotal_navFallback app))

/-- `testDirectNavigation` always succeeds: each per-URL timeout is
caught and recorded rather than propagated. -/
theorem ptotal_testDirectNavigation (app : AppModel) (urls : List String) :
    PTotal (NavigationComponent.testDirectNavigation app urls) := by
  induction urls with
  | nil =>
      simp only [NavigationComponent.testDirectNavigation]
      exact ptotal_pure _
  | cons u rest ih =>
      simp only [NavigationComponent.testDirectNavigation]
      refine ptotal_bind (ptotal_pTry _ _ (ptotal_pure _)) (fun r => ?_)
      exact ptotal_bind ih (fun rs => ptotal_pure _)

/-- C5, amended: timeout errors raised by underlying waits propagate
unchanged through the page-object methods that install no handler
(`navigateToJobs` returns exactly the URL-wait's outcome, `getPageTitle`
exactly the text-query's outcome, and the uncaught leading waits of the
load-waiter methods propagate), while the methods that deliberately
catch substitute recovery behaviour instead of propagating:
`waitForJobsLoad`, `waitForDashboardLoad` and `waitForActivitiesLoad`
catch the primary element-wait's timeout and run a fallback wait,
`AuthPage.logout` catches the landing-URL wait's timeout, recovers and
always succeeds, and `NavigationComponent.testDirectNavigation` catches
each per-URL navigation timeout, records `'failed'` for that URL, and
always succeeds. -/
theorem c5_amended :
    (∀ (app : AppModel) (st : PageState),
      JobsPage.navigateToJobs app st =
        BasePage.waitForUrl "/all-jobs" 10000 (app.gotoEffect "/all-jobs" st)) ∧
    (∀ st : PageState,
      JobsPage.getPageTitle st = BasePage.getTextContent jobsLocators.pageTitle st) ∧
    (∀ st : PageState,
      (BasePage.waitForElement jobsLocators.jobCards 3000 st).1 = .error .timeout →
      JobsPage.waitForJobsLoad st = BasePage.waitForElement jobsLocators.pageTitle 3000 st) ∧
    (∀ st : PageState,
      (BasePage.waitForUrl "/" 10000 st).1 = .error .timeout →
      DashboardPage.waitForDashboardLoad st = (.error .timeout, st)) ∧
    (∀ st : PageState,
      (BasePage.waitForElement activitiesLocators.pageTitle 5000 st).1 = .error .timeout →
      ActivitiesPage.waitForActivitiesLoad st = (.error .timeout, st)) ∧
    (∀ (app : AppModel) (st : PageState), (AuthPage.logout app st).1 = .ok ()) ∧
    (∀ (app : AppModel) (u : String) (st : PageState),
      (BasePage.waitForUrl u 10000 (app.gotoEffect u st)).1 = .error .timeout →
      NavigationComponent.testDirectNavigation app [u] st =
        (.ok [(u, "failed")], app.gotoEffect u st)) ∧
    (∀ (app : AppModel) (urls : List String) (st : PageState),
      ∃ rs, (NavigationComponent.testDirectNavigation app urls st).1 = .ok rs) := by
  refine ⟨fun app st => rfl, fun st => rfl, ?_, ?_, ?_, ?_, ?_, ?_⟩
  · intro st h
    have h2 : BasePage.waitForElement jobsLocators.jobCards 3000 st = (.error .timeout, st) :=
      Prod.ext h (waitForElement_state _ _ _)
    unfold JobsPage.waitForJobsLoad JobsPage.waitForJobsLoadL pTry
    rw [h2]
  · intro st h
    have h2 : BasePage.waitForUrl "/" 10000 st = (.error .timeout, st) :=
      Prod.ext h (waitForUrl_state _ _ _)
    unfold DashboardPage.waitForDashboardLoad
    simp [PageM.run_bind, h2]
  · intro st h
    have h2 : BasePage.waitForElement activitiesLocators.pageTitle 5000 st =
        (.error .timeout, st) :=
      Prod.ext h (waitForElement_state _ _ _)
    unfold ActivitiesPage.waitForActivitiesLoad ActivitiesPage.waitForActivitiesLoadL
    simp [PageM.run_bind, h2]
  · intro app st
    obtain ⟨a, ha⟩ := ptotal_logout app st
    cases a
    exact ha
  · intro app u st h
    have h2 : BasePage.waitForUrl u 10000 (app.gotoEffect u st) =
        (.error .timeout, app.gotoEffect u st) :=
      Prod.ext h (waitForUrl_state _ _ _)
    simp only [NavigationComponent.testDirectNavigation, PageM.run_bind, PageM.run_pure, pTry,
      BasePage.navigate, h2]
  · intro app urls st
    exact ptotal_testDirectNavigation app urls st

/-- C5, witness: the amended statement evaluated on concrete pages — the
empty jobs listing (primary wait fails, fallback runs), a page not on
the root URL (dashboard URL-wait error propagates), the empty page (the
activities title wait error propagates), a logout run that returns
successfully, and a direct-navigation probe whose navigation is
redirected away, recording `'failed'` instead of propagating. -/
theorem c5_witness :
    (JobsPage.waitForJobsLoad stTitleOnly =
      BasePage.waitForElement jobsLocators.pageTitle 3000 stTitleOnly) ∧
    (DashboardPage.waitForDashboardLoad stTitleOnly = (.error .timeout, stTitleOnly)) ∧
    (ActivitiesPage.waitForActivitiesLoad st0 = (.error .timeout, st0)) ∧
    ((AuthPage.logout jobsApp st0).1 = .ok ()) ∧
    (NavigationComponent.testDirectNavigation redirectApp ["/all-jobs"] st0 =
      (.ok [("/all-jobs", "failed")], { st0 with url := baseURL ++ "/landing" })) := by
  obtain ⟨-, -, hc, hd, he, hf, hg, -⟩ := c5_amended
  exact ⟨hc stTitleOnly rfl, hd stTitleOnly rfl, he st0 rfl, hf jobsApp st0,
    hg redirectApp "/all-jobs" st0 rfl⟩
